import Mathlib

/-
Verification of the brook realtime pub/sub client SDK.

The development shallowly embeds the client runtime:
  - ExponentialBackoff        (src/client/utils/backoff.js)
  - Connection (Conn)         (src/client/connection.js), as an event-step machine
  - Channel / Stream          (src/client/channel.js, src/client/stream.js)
Outbound wire frames and inbound server messages are explicit data; timers,
sockets and promises are modelled as fields of the state driven by discrete
events, following the single-threaded cooperative event model of the source.
-/

namespace Brook

/-- JavaScript defaulting idiom used by the source constructors:
the expression treats an absent option and a zero value as falsy,
falling back to the default in both cases. -/
def jsOr (o : Option ℚ) (d : ℚ) : ℚ :=
  match o with
  | none => d
  | some v => if v = 0 then d else v

/-- JavaScript defaulting for the maxAttempts option: an absent or zero
value falls back to Infinity (modelled as the top element of extended naturals). -/
def jsOrInf (o : Option ℕ) : ℕ∞ :=
  match o with
  | none => ⊤
  | some v => if v = 0 then ⊤ else (v : ℕ∞)

/-- Constructor options of ExponentialBackoff (all optional, as in the source). -/
structure BackoffOptions where
  initialDelay : Option ℚ
  multiplier : Option ℚ
  maxDelay : Option ℚ
  jitter : Option ℚ
  maxAttempts : Option ℕ
deriving DecidableEq, Repr

/-- State of the ExponentialBackoff object (src/client/utils/backoff.js).
Delays are rationals (JS numbers); maxAttempts defaults to Infinity. -/
structure ExponentialBackoff where
  initialDelay : ℚ
  multiplier : ℚ
  maxDelay : ℚ
  jitter : ℚ
  maxAttempts : ℕ∞
  attempts : ℕ
  currentDelay : ℚ
deriving DecidableEq

namespace ExponentialBackoff

/-- The constructor: every option is defaulted with the JS falsy-or idiom,
attempts starts at 0 and currentDelay at the initial delay. -/
def create (o : BackoffOptions) : ExponentialBackoff :=
  { initialDelay := jsOr o.initialDelay 3000
    multiplier := jsOr o.multiplier (3/2)
    maxDelay := jsOr o.maxDelay 30000
    jitter := jsOr o.jitter (1/10)
    maxAttempts := jsOrInf o.maxAttempts
    attempts := 0
    currentDelay := jsOr o.initialDelay 3000 }

/-- The state update getDelay performs on a successful call: attempts is
incremented and currentDelay is multiplied and clamped at maxDelay.
This part of getDelay does not depend on the random draw. -/
def advance (b : ExponentialBackoff) : ExponentialBackoff :=
  { b with attempts := b.attempts + 1
           currentDelay := min (b.currentDelay * b.multiplier) b.maxDelay }

/-- getDelay, with the Math.random() draw passed in as the rational r
(the source draws r uniformly from the unit interval). Returns the floored,
jittered, clamped delay, or an error when attempts have reached maxAttempts;
the error path leaves the state unchanged, mirroring the throw before any
mutation in the source. -/
def getDelay (b : ExponentialBackoff) (r : ℚ) : Except String ℤ × ExponentialBackoff :=
  if b.maxAttempts ≤ (b.attempts : ℕ∞) then
    (Except.error "Maximum reconnection attempts exceeded", b)
  else
    let delay := b.currentDelay
    let jitterAmount := delay * b.jitter
    let jitterOffset := (r * 2 - 1) * jitterAmount
    let jittered := delay + jitterOffset
    let clamped := max 100 (min jittered b.maxDelay)
    (Except.ok ⌊clamped⌋, advance b)

/-- reset, called on a successful connection. -/
def reset (b : ExponentialBackoff) : ExponentialBackoff :=
  { b with attempts := 0, currentDelay := b.initialDelay }

/-- isMaxAttemptsReached as in the source. -/
def isMaxAttemptsReached (b : ExponentialBackoff) : Bool :=
  decide (b.maxAttempts ≤ (b.attempts : ℕ∞))

/-- The pre-jitter baseline of the k-th call after a reset, counted from 0:
the claimed base of attempt n is this with k = n - 1. -/
def base (b0 : ExponentialBackoff) (k : ℕ) : ℚ :=
  min (b0.initialDelay * b0.multiplier ^ k) b0.maxDelay

theorem advance_iterate_fixed (b : ExponentialBackoff) (k : ℕ) :
    (advance^[k] b).multiplier = b.multiplier ∧
    (advance^[k] b).maxDelay = b.maxDelay ∧
    (advance^[k] b).jitter = b.jitter ∧
    (advance^[k] b).maxAttempts = b.maxAttempts ∧
    (advance^[k] b).initialDelay = b.initialDelay ∧
    (advance^[k] b).attempts = b.attempts + k := by
  induction k with
  | zero => simp
  | succ n ih =>
    rw [Function.iterate_succ_apply']
    refine ⟨ih.1, ih.2.1, ih.2.2.1, ih.2.2.2.1, ih.2.2.2.2.1, ?_⟩
    simp [advance, ih.2.2.2.2.2]
    omega

theorem advance_iterate_currentDelay (b : ExponentialBackoff)
    (hm : 1 ≤ b.multiplier) (hM : 0 ≤ b.maxDelay) (k : ℕ) (hk : 0 < k) :
    (advance^[k] b).currentDelay = min (b.currentDelay * b.multiplier ^ k) b.maxDelay := by
  induction k with
  | zero => omega
  | succ n ih =>
    rw [Function.iterate_succ_apply']
    rcases Nat.eq_zero_or_pos n with hn | hn
    · subst hn
      simp [advance]
    · have hmul := (advance_iterate_fixed b n).1
      have hmax := (advance_iterate_fixed b n).2.1
      rw [show ((advance (advance^[n] b)).currentDelay)
            = min ((advance^[n] b).currentDelay * (advance^[n] b).multiplier)
                (advance^[n] b).maxDelay from rfl,
          hmul, hmax, ih hn]
      have hm0 : (0 : ℚ) ≤ b.multiplier := le_trans zero_le_one hm
      rw [min_mul_of_nonneg _ _ hm0]
      rw [min_assoc]
      have hMm : b.maxDelay ≤ b.maxDelay * b.multiplier :=
        le_mul_of_one_le_right hM hm
      rw [min_eq_right hMm]
      ring_nf

theorem create_currentDelay (o : BackoffOptions) :
    (create o).currentDelay = (create o).initialDelay := rfl

theorem getDelay_isOk (b : ExponentialBackoff) (r : ℚ) :
    ((getDelay b r).1.isOk = true) ↔ ¬ b.maxAttempts ≤ (b.attempts : ℕ∞) := by
  by_cases h : b.maxAttempts ≤ (b.attempts : ℕ∞) <;>
    simp [getDelay, h, Except.isOk, Except.toBool]

theorem getDelay_bounds_one (b : ExponentialBackoff) (r : ℚ)
    (h : ¬ b.maxAttempts ≤ (b.attempts : ℕ∞))
    (hj0 : 0 ≤ b.jitter) (hj1 : b.jitter ≤ 1)
    (hr0 : 0 ≤ r) (hr1 : r ≤ 1)
    (hc : 0 ≤ b.currentDelay) (hM : 0 ≤ b.maxDelay) :
    ∃ v : ℤ, (getDelay b r).1 = Except.ok v ∧
      ⌊max 100 (min b.currentDelay b.maxDelay * (1 - b.jitter))⌋ ≤ v ∧
      v ≤ ⌊max 100 (min b.maxDelay (min b.currentDelay b.maxDelay * (1 + b.jitter)))⌋ := by
  refine ⟨⌊max 100 (min (b.currentDelay + (r * 2 - 1) * (b.currentDelay * b.jitter)) b.maxDelay)⌋,
    by simp [getDelay, h], ?_, ?_⟩
  · apply Int.floor_le_floor
    apply max_le_max (le_refl (100 : ℚ))
    refine le_min ?_ ?_
    · have hA : 0 ≤ (b.currentDelay - min b.currentDelay b.maxDelay) * (1 - b.jitter) :=
        mul_nonneg (sub_nonneg.2 (min_le_left _ _)) (sub_nonneg.2 hj1)
      have hB : 0 ≤ r * (b.currentDelay * b.jitter) :=
        mul_nonneg hr0 (mul_nonneg hc hj0)
      nlinarith [hA, hB]
    · have hbs0 : 0 ≤ min b.currentDelay b.maxDelay := le_min hc hM
      have := mul_nonneg hbs0 hj0
      nlinarith [min_le_right b.currentDelay b.maxDelay]
  · apply Int.floor_le_floor
    apply max_le_max (le_refl (100 : ℚ))
    rcases le_total b.currentDelay b.maxDelay with hcM | hMc
    · rw [min_eq_left hcM]
      refine le_min (min_le_right _ _) ?_
      have hprod : 0 ≤ (b.currentDelay * b.jitter) * (2 - r * 2) :=
        mul_nonneg (mul_nonneg hc hj0) (by linarith)
      have : b.currentDelay + (r * 2 - 1) * (b.currentDelay * b.jitter)
          ≤ b.currentDelay * (1 + b.jitter) := by nlinarith [hprod]
      exact le_trans (min_le_left _ _) this
    · rw [min_eq_right hMc]
      refine le_min (min_le_right _ _) ?_
      have : b.maxDelay ≤ b.maxDelay * (1 + b.jitter) := by
        nlinarith [mul_nonneg hM hj0]
      exact le_trans (min_le_right _ _) this

theorem advance_iterate_base (o : BackoffOptions) (k : ℕ)
    (hm : 1 ≤ (create o).multiplier) (hM : 0 ≤ (create o).maxDelay) :
    min (advance^[k] (create o)).currentDelay (advance^[k] (create o)).maxDelay
      = base (create o) k := by
  rcases Nat.eq_zero_or_pos k with hk | hk
  · subst hk
    simp [base, create_currentDelay]
  · rw [advance_iterate_currentDelay (create o) hm hM k hk,
      (advance_iterate_fixed (create o) k).2.1, create_currentDelay, base,
      min_assoc, min_self]

end ExponentialBackoff

open ExponentialBackoff in
/-- The spec example configuration, with jitter configured to 0:
initialDelay 1000 ms, multiplier 2, maxDelay 8000 ms, maxAttempts 4. -/
def zeroJitterOptions : BackoffOptions :=
  ⟨some 1000, some 2, some 8000, some 0, some 4⟩

open ExponentialBackoff in
theorem create_zeroJitter :
    create zeroJitterOptions
      = { initialDelay := 1000, multiplier := 2, maxDelay := 8000, jitter := 1/10,
          maxAttempts := (4 : ℕ∞), attempts := 0, currentDelay := 1000 } := by
  norm_num [create, zeroJitterOptions, jsOr, jsOrInf]

open ExponentialBackoff in
/-- C4 counterexample: the constructor turns a configured jitter of 0 into the
default 0.1 (the falsy-or idiom), so with initialDelay 1000, multiplier 2,
maxDelay 8000 and jitter configured to 0, the first getDelay call with random
draw 3/4 returns 1050, not exactly 1000 as the claim states. -/
theorem backoff_zero_jitter_counterexample :
    (create zeroJitterOptions).jitter = 1/10 ∧
    (getDelay (create zeroJitterOptions) (3/4)).1 = Except.ok 1050 ∧
    (1050 : ℤ) ≠ 1000 := by
  refine ⟨by rw [create_zeroJitter], ?_, by decide⟩
  rw [create_zeroJitter]
  simp only [getDelay]
  rw [if_neg (by decide)]
  norm_num [min_def, max_def]

open ExponentialBackoff in
/-- C4 (amended): for every backoff configuration with multiplier at least 1,
nonnegative initialDelay and maxDelay, effective jitter j in the unit interval
(the constructor replaces a configured 0 by the default 0.1), every attempt
index k with k+1 at most maxAttempts, and every random draw r in the unit
interval, the (k+1)-th getDelay call since the last reset succeeds and returns
a value v with
  floor (max 100 (base * (1 - j))) <= v <= floor (max 100 (min maxDelay (base * (1 + j))))
where base = min (initialDelay * multiplier ^ k) maxDelay. -/
theorem backoff_delay_within_bounds (o : BackoffOptions) (k : ℕ) (r : ℚ)
    (hm : 1 ≤ (create o).multiplier)
    (hI : 0 ≤ (create o).initialDelay) (hM : 0 ≤ (create o).maxDelay)
    (hj0 : 0 ≤ (create o).jitter) (hj1 : (create o).jitter ≤ 1)
    (hk : (k : ℕ∞) < (create o).maxAttempts)
    (hr0 : 0 ≤ r) (hr1 : r ≤ 1) :
    ∃ v : ℤ, (getDelay (advance^[k] (create o)) r).1 = Except.ok v ∧
      ⌊max 100 (base (create o) k * (1 - (create o).jitter))⌋ ≤ v ∧
      v ≤ ⌊max 100 (min (create o).maxDelay
            (base (create o) k * (1 + (create o).jitter)))⌋ := by
  obtain ⟨hmul, hmax, hjit, hatt, hinit, hcnt⟩ := advance_iterate_fixed (create o) k
  have hguard : ¬ (advance^[k] (create o)).maxAttempts
      ≤ (((advance^[k] (create o)).attempts : ℕ) : ℕ∞) := by
    rw [hatt, hcnt, show (create o).attempts = 0 from rfl]
    simpa using not_le.2 hk
  have hc : 0 ≤ (advance^[k] (create o)).currentDelay := by
    rcases Nat.eq_zero_or_pos k with hk0 | hk0
    · subst hk0
      simpa [create_currentDelay] using hI
    · rw [advance_iterate_currentDelay (create o) hm hM k hk0]
      exact le_min (mul_nonneg (by simpa [create_currentDelay] using hI)
        (pow_nonneg (le_trans zero_le_one hm) k)) hM
  obtain ⟨v, hv, h1, h2⟩ := getDelay_bounds_one (advance^[k] (create o)) r hguard
    (by rw [hjit]; exact hj0) (by rw [hjit]; exact hj1) hr0 hr1 hc (by rw [hmax]; exact hM)
  rw [advance_iterate_base o k hm hM] at h1 h2
  rw [hjit] at h1
  rw [hmax, hjit] at h2
  exact ⟨v, hv, h1, h2⟩

open ExponentialBackoff in
/-- C4 witness: the amended bound instantiated at the example configuration
(jitter configured 0, hence effective jitter 0.1), first call, random draw 3/4:
the returned value lies between 900 and 1100. -/
theorem backoff_delay_within_bounds_witness :
    ∃ v : ℤ, (getDelay (advance^[0] (create zeroJitterOptions)) (3/4)).1 = Except.ok v ∧
      ⌊max 100 (base (create zeroJitterOptions) 0 * (1 - (create zeroJitterOptions).jitter))⌋ ≤ v ∧
      v ≤ ⌊max 100 (min (create zeroJitterOptions).maxDelay
            (base (create zeroJitterOptions) 0 * (1 + (create zeroJitterOptions).jitter)))⌋ :=
  backoff_delay_within_bounds zeroJitterOptions 0 (3/4)
    (by rw [create_zeroJitter]; norm_num) (by rw [create_zeroJitter]; norm_num)
    (by rw [create_zeroJitter]; norm_num) (by rw [create_zeroJitter]; norm_num)
    (by rw [create_zeroJitter]; norm_num) (by rw [create_zeroJitter]; decide)
    (by norm_num) (by norm_num)

open ExponentialBackoff in
/-- The C5 example configuration with maxAttempts 4. -/
def fourAttemptOptions : BackoffOptions :=
  ⟨some 1000, some 2, some 8000, some (1/10), some 4⟩

open ExponentialBackoff in
/-- C5: a getDelay call made when attempts has reached maxAttempts returns the
MaxAttemptsExceeded error and leaves the backoff state unchanged; with
maxAttempts 4, the calls after 0, 1, 2 and 3 successful calls succeed and the
call after 4 successful calls fails, for every random draw. -/
theorem backoff_max_attempts_exceeded (b : ExponentialBackoff) (r r' : ℚ)
    (h : b.maxAttempts ≤ (b.attempts : ℕ∞)) :
    getDelay b r = (Except.error "Maximum reconnection attempts exceeded", b) ∧
    (∀ k, k < 4 → ((getDelay (advance^[k] (create fourAttemptOptions)) r').1.isOk = true)) ∧
    ((getDelay (advance^[4] (create fourAttemptOptions)) r').1.isOk = false) := by
  refine ⟨by simp [getDelay, h], ?_, ?_⟩
  · intro k hk
    rw [getDelay_isOk,
      (advance_iterate_fixed (create fourAttemptOptions) k).2.2.2.1,
      (advance_iterate_fixed (create fourAttemptOptions) k).2.2.2.2.2]
    have h4 : (create fourAttemptOptions).maxAttempts = ((4 : ℕ) : ℕ∞) := by decide
    have hatt : (create fourAttemptOptions).attempts = 0 := rfl
    rw [h4, hatt, Nat.cast_le]
    omega
  · rw [← Bool.not_eq_true, getDelay_isOk, not_not,
      (advance_iterate_fixed (create fourAttemptOptions) 4).2.2.2.1,
      (advance_iterate_fixed (create fourAttemptOptions) 4).2.2.2.2.2]
    decide

open ExponentialBackoff in
/-- C5 witness: after four successful calls on the maxAttempts-4 configuration,
the fifth call fails with the MaxAttemptsExceeded error and leaves the state
unchanged, while the first four calls succeed. -/
theorem backoff_max_attempts_exceeded_witness :
    getDelay (advance^[4] (create fourAttemptOptions)) (1/2)
      = (Except.error "Maximum reconnection attempts exceeded",
         advance^[4] (create fourAttemptOptions)) ∧
    (∀ k, k < 4 → ((getDelay (advance^[k] (create fourAttemptOptions)) (1/2)).1.isOk = true)) ∧
    ((getDelay (advance^[4] (create fourAttemptOptions)) (1/2)).1.isOk = false) :=
  backoff_max_attempts_exceeded (advance^[4] (create fourAttemptOptions)) (1/2) (1/2)
    (by decide)

/-- Outbound wire frames the client writes to the transport. -/
inductive Frame
  | auth (timestamp : ℕ)
  | subscribe (channel : String) (fromOffset : ℤ)
  | unsubscribe (channel : String) (timestamp : ℕ)
  | publish (channel : String) (message : String) (timestamp : ℕ)
  | heartbeat (timestamp : ℕ)
deriving DecidableEq

/-- A Stream object (src/client/stream.js) after start: offset snapshot taken
at creation, state string, bound channel name and handler. Callbacks are
identified by natural numbers (reference identity of JS functions). -/
structure StreamObj where
  offset : ℤ
  state : String
  channelName : String
  handler : ℕ
deriving DecidableEq

/-- Map.set semantics of the JS Map keyed by callback identity: replace the
value in place when the key is present, append otherwise. -/
def mapSet (k : ℕ) (v : StreamObj) : List (ℕ × StreamObj) → List (ℕ × StreamObj)
  | [] => [(k, v)]
  | (k', v') :: rest => if k' = k then (k, v) :: rest else (k', v') :: mapSet k v rest

/-- Map.get semantics of the JS Map keyed by callback identity. -/
def mapGet (k : ℕ) : List (ℕ × StreamObj) → Option StreamObj
  | [] => none
  | (k', v') :: rest => if k' = k then some v' else mapGet k rest

/-- Channel state (src/client/channel.js): topic name, replay offset and the
callback-keyed stream map. The connection reference and the localStorage
offset persistence are outside the claims and not carried here. -/
structure Channel where
  name : String
  offset : ℤ
  streams : List (ℕ × StreamObj)
deriving DecidableEq

/-- An inbound frame as the channel sees it (parsed JSON): absent fields are
none; replay defaults to false at the metadata step. -/
structure InboundMsg where
  type : String
  channel : Option String
  data : String
  offset : Option ℤ
  timestamp : ℕ
  replay : Bool
deriving DecidableEq

/-- The metadata record handed to stream handlers. -/
structure MsgMeta where
  offset : Option ℤ
  timestamp : ℕ
  replay : Bool
  channel : Option String
deriving DecidableEq

/-- One handler invocation: which handler, the payload, the metadata. -/
structure Delivery where
  handler : ℕ
  data : String
  meta : MsgMeta
deriving DecidableEq

namespace Channel

/-- The Stream created and started by Channel.stream: snapshot of the channel
offset, state streaming, handler bound to the callback. -/
def newStream (ch : Channel) (cb : ℕ) : StreamObj :=
  { offset := ch.offset, state := "streaming", channelName := ch.name, handler := cb }

/-- Channel.stream: creates a Stream at the current offset, stores it in the
map keyed by the callback (Map.set replaces an existing entry), and
Stream.start sends the subscribe frame carrying the topic and the offset. -/
def stream (ch : Channel) (cb : ℕ) : List Frame × Channel :=
  ([Frame.subscribe ch.name ch.offset],
   { ch with streams := mapSet cb (ch.newStream cb) ch.streams })

/-- Channel.resubscribe (src/client/channel.js lines 239-243): the guard tests
for active streams but the body holds only a todo comment, so nothing is sent
either way. -/
def resubscribe (ch : Channel) : List Frame × Channel :=
  if ch.streams.length > 0 then ([], ch) else ([], ch)

/-- Channel.setOffset: stores the new offset (the localStorage write is
environment-specific and not modelled). -/
def setOffset (ch : Channel) (o : ℤ) : Channel :=
  { ch with offset := o }

/-- Channel.processIncomingMessage: builds the metadata record, advances the
offset only when the frame offset is truthy (present and nonzero) and
strictly greater than the stored offset, then forwards payload and metadata
to every stream in the map. -/
def processIncomingMessage (ch : Channel) (m : InboundMsg) : Channel × List Delivery :=
  let md : MsgMeta :=
    { offset := m.offset, timestamp := m.timestamp, replay := m.replay, channel := m.channel }
  let ch' :=
    match m.offset with
    | none => ch
    | some o => if o = 0 then ch else if ch.offset < o then ch.setOffset o else ch
  (ch', ch.streams.map (fun p => { handler := p.2.handler, data := m.data, meta := md }))

/-- Channel.handleMessage: drops everything while no stream is active, logs
subscription confirmations, and processes message frames that carry no topic
or the channel's own topic, defaulting an absent topic to the channel name. -/
def handleMessage (ch : Channel) (m : InboundMsg) : Channel × List Delivery :=
  if ch.streams.length = 0 then (ch, [])
  else if m.type = "subscribed" ∧ m.channel = some ch.name then (ch, [])
  else if m.type = "unsubscribed" ∧ m.channel = some ch.name then (ch, [])
  else if m.type = "message" then
    if m.channel = none ∨ m.channel = some ch.name then
      ch.processIncomingMessage { m with channel := some (m.channel.getD ch.name) }
    else (ch, [])
  else (ch, [])

end Channel

/-- Package.resubscribeChannels (src/client/index.js lines 243-249): calls
resubscribe on every channel with a nonempty stream map, collecting the
frames each call sends. -/
def resubscribeChannels : List Channel → List Frame × List Channel
  | [] => ([], [])
  | ch :: rest =>
    let p := if ch.streams.length > 0 then Channel.resubscribe ch else ([], ch)
    let q := resubscribeChannels rest
    (p.1 ++ q.1, p.2 :: q.2)

/-- C1: the resubscription-after-reconnect path sends nothing: for every
channel, Channel.resubscribe emits no subscribe frame and leaves the channel
unchanged, and Package.resubscribeChannels over any channel list emits no
frame at all, contrary to the documented intent of re-issuing the subscribe
request from the last known offset. -/
theorem resubscribe_sends_no_frames (ch : Channel) (chs : List Channel) :
    Channel.resubscribe ch = ([], ch) ∧ (resubscribeChannels chs).1 = [] := by
  constructor
  · by_cases h : ch.streams.length > 0 <;> simp [Channel.resubscribe, h]
  · induction chs with
    | nil => rfl
    | cons c rest ih =>
      by_cases h : c.streams.length > 0 <;>
        simp [resubscribeChannels, Channel.resubscribe, h, ih]

theorem mapGet_mapSet (k : ℕ) (v : StreamObj) (l : List (ℕ × StreamObj)) :
    mapGet k (mapSet k v l) = some v := by
  induction l with
  | nil => simp [mapSet, mapGet]
  | cons p rest ih =>
    by_cases h : p.1 = k <;> simp [mapSet, mapGet, h, ih]

theorem mapSet_length_mapSet (k : ℕ) (v v' : StreamObj) (l : List (ℕ × StreamObj)) :
    (mapSet k v (mapSet k v' l)).length = (mapSet k v' l).length := by
  induction l with
  | nil => simp [mapSet]
  | cons p rest ih =>
    by_cases h : p.1 = k <;> simp [mapSet, h, ih]

/-- A fresh channel named t with no stream, used as concrete input. -/
def sampleChannel : Channel :=
  { name := "t", offset := 0, streams := [] }

/-- A message frame for topic t carrying offset 1. -/
def sampleMsg : InboundMsg :=
  { type := "message", channel := some "t", data := "x", offset := some 1,
    timestamp := 0, replay := false }

/-- C2 counterexample: calling stream twice with the same callback (id 7) on a
fresh channel leaves one stream in the map, not two coexisting Streams, and a
subsequent message frame is delivered exactly once, not once per call. -/
theorem stream_same_callback_counterexample :
    ((sampleChannel.stream 7).2.stream 7).2.streams.length = 1 ∧
    ¬ (2 ≤ ((sampleChannel.stream 7).2.stream 7).2.streams.length) ∧
    (((sampleChannel.stream 7).2.stream 7).2.handleMessage sampleMsg).2.length = 1 := by
  decide

/-- C2 (amended): calling stream again with a callback already present is
permitted and is not a silent no-op - the subscribe frame is re-sent - but it
replaces the existing Stream for that callback in the map rather than adding
an independent one: the map size is unchanged, the entry holds the fresh
Stream, and each message is delivered once per map entry. -/
theorem stream_same_callback_replaces (ch : Channel) (cb : ℕ) :
    ((ch.stream cb).2.stream cb).1
      = [Frame.subscribe ch.name ((ch.stream cb).2).offset] ∧
    ((ch.stream cb).2.stream cb).2.streams.length = ((ch.stream cb).2).streams.length ∧
    mapGet cb ((ch.stream cb).2.stream cb).2.streams
      = some (Channel.newStream ((ch.stream cb).2) cb) ∧
    ∀ m, (((ch.stream cb).2.stream cb).2.processIncomingMessage m).2.length
          = ((ch.stream cb).2.stream cb).2.streams.length := by
  refine ⟨rfl, ?_, ?_, ?_⟩
  · simpa [Channel.stream] using
      mapSet_length_mapSet cb (Channel.newStream ((ch.stream cb).2) cb)
        (Channel.newStream ch cb) ch.streams
  · simpa [Channel.stream] using
      mapGet_mapSet cb (Channel.newStream ((ch.stream cb).2) cb)
        (mapSet cb (Channel.newStream ch cb) ch.streams)
  · intro m
    simp [Channel.processIncomingMessage]

/-- The C7 example channel: topic t, stored offset 0, one active stream. -/
def exampleChannel : Channel :=
  { name := "t", offset := 0,
    streams := [(7, { offset := 0, state := "streaming", channelName := "t", handler := 7 })] }

/-- A message frame for topic t carrying the given offset. -/
def offsetMsg (o : ℤ) : InboundMsg :=
  { type := "message", channel := some "t", data := "x", offset := some o,
    timestamp := 0, replay := false }

/-- C7: handling a message frame for a channel with at least one active stream
advances the stored offset only to a strictly greater frame offset (so the
offset is monotone non-decreasing), delivers payload and metadata to every
active stream regardless of whether the offset advanced, and on the example
channel delivering offsets 5 then 3 leaves the offset at 5 while a later 7
advances it to 7. -/
theorem channel_offset_monotone (ch : Channel) (m : InboundMsg)
    (hs : ch.streams.length ≠ 0) (ht : m.type = "message")
    (hc : m.channel = none ∨ m.channel = some ch.name) :
    ch.offset ≤ (ch.handleMessage m).1.offset ∧
    ((ch.handleMessage m).1.offset = ch.offset ∨
      (m.offset = some ((ch.handleMessage m).1.offset) ∧
        ch.offset < (ch.handleMessage m).1.offset)) ∧
    (ch.handleMessage m).2 = ch.streams.map (fun p =>
      { handler := p.2.handler, data := m.data,
        meta := { offset := m.offset, timestamp := m.timestamp, replay := m.replay,
                  channel := some (m.channel.getD ch.name) } }) ∧
    ((exampleChannel.handleMessage (offsetMsg 5)).1.offset = 5 ∧
      ((exampleChannel.handleMessage (offsetMsg 5)).1.handleMessage (offsetMsg 3)).1.offset = 5 ∧
      (((exampleChannel.handleMessage (offsetMsg 5)).1.handleMessage (offsetMsg 3)).1.handleMessage
        (offsetMsg 7)).1.offset = 7) := by
  have hmsg : ch.handleMessage m
      = ch.processIncomingMessage { m with channel := some (m.channel.getD ch.name) } := by
    rw [Channel.handleMessage, if_neg hs, if_neg ?_, if_neg ?_, if_pos ht, if_pos hc]
    · rintro ⟨h1, -⟩
      rw [ht] at h1
      exact absurd h1 (by decide)
    · rintro ⟨h1, -⟩
      rw [ht] at h1
      exact absurd h1 (by decide)
  refine ⟨?_, ?_, ?_, by decide⟩
  · rw [hmsg, Channel.processIncomingMessage]
    rcases m.offset with - | o
    · simp
    · simp only
      by_cases h0 : o = 0
      · simp [h0]
      · by_cases hlt : ch.offset < o <;> simp [h0, hlt, Channel.setOffset]
        omega
  · rw [hmsg, Channel.processIncomingMessage]
    rcases ho : m.offset with - | o
    · simp
    · simp only
      by_cases h0 : o = 0
      · simp [h0]
      · by_cases hlt : ch.offset < o
        · simp [h0, hlt, Channel.setOffset, ho]
          try omega
        · simp [h0, hlt]
  · rw [hmsg, Channel.processIncomingMessage]

/-- C7 witness: the theorem instantiated at the example channel and a message
frame carrying offset 5 for topic t. -/
theorem channel_offset_monotone_witness :
    exampleChannel.offset ≤ (exampleChannel.handleMessage (offsetMsg 5)).1.offset ∧
    ((exampleChannel.handleMessage (offsetMsg 5)).1.offset = exampleChannel.offset ∨
      ((offsetMsg 5).offset = some ((exampleChannel.handleMessage (offsetMsg 5)).1.offset) ∧
        exampleChannel.offset < (exampleChannel.handleMessage (offsetMsg 5)).1.offset)) ∧
    (exampleChannel.handleMessage (offsetMsg 5)).2 = exampleChannel.streams.map (fun p =>
      { handler := p.2.handler, data := (offsetMsg 5).data,
        meta := { offset := (offsetMsg 5).offset, timestamp := (offsetMsg 5).timestamp,
                  replay := (offsetMsg 5).replay,
                  channel := some ((offsetMsg 5).channel.getD exampleChannel.name) } }) ∧
    ((exampleChannel.handleMessage (offsetMsg 5)).1.offset = 5 ∧
      ((exampleChannel.handleMessage (offsetMsg 5)).1.handleMessage (offsetMsg 3)).1.offset = 5 ∧
      (((exampleChannel.handleMessage (offsetMsg 5)).1.handleMessage (offsetMsg 3)).1.handleMessage
        (offsetMsg 7)).1.offset = 7) :=
  channel_offset_monotone exampleChannel (offsetMsg 5) (by decide) (by decide)
    (by decide)

/-- Connection states (src/client/connection.js CONNECTION_STATES). -/
inductive ConnState
  | disconnected
  | connecting
  | authenticating
  | connected
  | reconnecting
  | failed
  | unauthorized
deriving DecidableEq

/-- A parsed inbound server message as the connection inspects it:
the type tag and the optional error field used by the default auth branch. -/
structure ServerMsg where
  type : String
  error : Option String
deriving DecidableEq

/-- A connectivity event dispatched by setState: the new state, the
timestamp and the client identifier. -/
structure ConnectivityEvent where
  status : ConnState
  timestamp : ℕ
  clientId : String
deriving DecidableEq

/-- Phase of the attached WebSocket: created but not yet open, or open.
A detached or absent socket is represented by none in the connection. -/
inductive WsPhase
  | connecting
  | open
deriving DecidableEq

/-- Connection.queueMessage: when the queue has reached maxQueueSize the
oldest entry is shifted off, then the new message is pushed with its
timestamp. -/
def queueMessage {α : Type} (maxQueueSize : ℕ) (queue : List (α × ℕ)) (m : α) (t : ℕ) :
    List (α × ℕ) :=
  let q := if maxQueueSize ≤ queue.length then queue.drop 1 else queue
  q ++ [(m, t)]

/-- Connection state (src/client/connection.js). Timers and promises are
modelled as pending-flags; the pending connect() promise carries an identity
so that callers can be told apart; socketsOpened counts WebSocket
constructions; sent records frames actually written to the socket. -/
structure Conn where
  state : ConnState
  clientId : String
  isAuthenticated : Bool
  shouldReconnect : Bool
  ws : Option WsPhase
  connectionPromise : Option ℕ
  nextPromiseId : ℕ
  socketsOpened : ℕ
  authPromise : Bool
  authTimer : Bool
  reconnectTimer : Bool
  heartbeatTimer : Bool
  lastPongTime : Option ℕ
  backoff : ExponentialBackoff
  messageQueue : List (Frame × ℕ)
  sent : List Frame
  connectivityLog : List ConnectivityEvent
deriving DecidableEq

namespace Conn

/-- setState: updates the state and dispatches a connectivity event only when
the target state differs from the current one. -/
def setState (c : Conn) (s : ConnState) (now : ℕ) : Conn :=
  if c.state = s then c
  else { c with state := s,
                connectivityLog := c.connectivityLog
                  ++ [{ status := s, timestamp := now, clientId := c.clientId }] }

/-- isConnected: Connected state, authenticated, and the socket open. -/
def isConnected (c : Conn) : Bool :=
  decide (c.state = ConnState.connected) && c.isAuthenticated
    && decide (c.ws = some WsPhase.open)

/-- send: transmit right away when connected, otherwise queue the message in
the bounded outbox (the constructor fixes maxQueueSize at 10000). The
try-catch around the socket write is not modelled: a modelled write succeeds. -/
def send (c : Conn) (f : Frame) (now : ℕ) : Conn :=
  if c.isConnected then { c with sent := c.sent ++ [f] }
  else { c with messageQueue := queueMessage 10000 c.messageQueue f now }

/-- flushMessageQueue: empties the outbox first, then re-sends every drained
message oldest first, so messages queued during the drain are not re-drained. -/
def flushMessageQueue (c : Conn) (now : ℕ) : Conn :=
  if c.messageQueue.length = 0 then c
  else
    let msgs := c.messageQueue
    let c := { c with messageQueue := [] }
    msgs.foldl (fun acc q => acc.send q.1 now) c

/-- attemptConnection: move to Connecting and construct a fresh WebSocket
(its 10-second connection timeout is a local value cleared by the open and
close paths and is not part of the claims). -/
def attemptConnection (c : Conn) (now : ℕ) : Conn :=
  let c := c.setState ConnState.connecting now
  { c with ws := some WsPhase.connecting, socketsOpened := c.socketsOpened + 1 }

/-- connect: a pending connectionPromise is returned as is; otherwise
reconnection is enabled, a fresh promise is recorded and an attempt starts. -/
def connect (c : Conn) (now : ℕ) : ℕ × Conn :=
  match c.connectionPromise with
  | some p => (p, c)
  | none =>
    let pid := c.nextPromiseId
    let c := { c with shouldReconnect := true, connectionPromise := some pid,
                      nextPromiseId := c.nextPromiseId + 1 }
    (pid, c.attemptConnection now)

/-- disconnect: stop reconnection, clear the reconnection and authentication
timers, reset the authentication state, stop the heartbeat, detach and close
the socket, and force the state to Disconnected. -/
def disconnect (c : Conn) (now : ℕ) : Conn :=
  let c := { c with shouldReconnect := false, reconnectTimer := false,
                    authTimer := false, isAuthenticated := false, authPromise := false,
                    heartbeatTimer := false, ws := none }
  c.setState ConnState.disconnected now

/-- scheduleReconnection: getDelay advances the backoff (the delay value only
parameterizes the timer) and the reconnection timer becomes pending. Callers
invoke it only below maxAttempts, where getDelay succeeds. -/
def scheduleReconnection (c : Conn) : Conn :=
  { c with reconnectTimer := true, backoff := c.backoff.advance }

/-- handleDisconnection: reset the authentication state; a deliberate close
(reconnection disabled) or a normal-closure code ends Disconnected; exhausted
backoff ends Failed; otherwise Reconnecting plus a scheduled retry. -/
def handleDisconnection (c : Conn) (code : ℕ) (now : ℕ) : Conn :=
  let c := { c with isAuthenticated := false, authPromise := false, authTimer := false }
  if c.shouldReconnect = false ∨ code = 1000 then c.setState ConnState.disconnected now
  else if c.backoff.isMaxAttemptsReached then c.setState ConnState.failed now
  else ((c.setState ConnState.reconnecting now).scheduleReconnection)

/-- The rejection of an attemptConnection promise as its awaiters observe it:
an awaiting connect() clears connectionPromise; an attempt spawned by the
reconnection timer re-schedules through its catch-branch, or fails for good
when the backoff is exhausted. -/
def rejectAttempt (c : Conn) (now : ℕ) : Conn :=
  match c.connectionPromise with
  | some _ => { c with connectionPromise := none }
  | none =>
    if c.backoff.isMaxAttemptsReached then c.setState ConnState.failed now
    else c.scheduleReconnection

/-- The socket open callback: clear the connection timeout, enter
Authenticating, reset the backoff, then startAuthentication: record the
pending auth promise, arm the auth timer and write the credentials frame. -/
def handleOpen (c : Conn) (now : ℕ) : Conn :=
  let c := { c with ws := some WsPhase.open }
  let c := c.setState ConnState.authenticating now
  let c := { c with backoff := c.backoff.reset }
  let c := { c with authPromise := true, authTimer := true }
  { c with sent := c.sent ++ [Frame.auth now] }

/-- The socket close callback: clear the connection timeout, stop the
heartbeat, then handleDisconnection. (The subsequent CONNECTING check in the
source can never fire: handleDisconnection has already moved the state to
disconnected, failed or reconnecting.) -/
def handleClose (c : Conn) (code : ℕ) (now : ℕ) : Conn :=
  let c := { c with ws := none, heartbeatTimer := false }
  c.handleDisconnection code now

/-- The socket error callback: rejects the attempt promise only while the
state is Connecting. -/
def handleSocketError (c : Conn) (now : ℕ) : Conn :=
  if c.state = ConnState.connecting then c.rejectAttempt now else c

/-- handleConnected plus the continuations its promise resolution runs in the
same microtask turn: clear the auth timer, mark authenticated, resolve the
handshake, enter Connected, start the heartbeat, flush the outbox, and let an
awaiting connect() clear its pending promise. -/
def handleConnectedMsg (c : Conn) (now : ℕ) : Conn :=
  let c := { c with authTimer := false, isAuthenticated := true, authPromise := false }
  let c := c.setState ConnState.connected now
  let c := { c with heartbeatTimer := true, lastPongTime := some now }
  let c := c.flushMessageQueue now
  { c with connectionPromise := none }

/-- handleAuthError plus the catch-branch it triggers: clear the auth timer,
reject the handshake, close the socket with a normal-closure code (the close
arrives later as a socket close event), enter Unauthorized and reject the
attempt promise. -/
def handleAuthErrorMsg (c : Conn) (now : ℕ) : Conn :=
  let c := { c with authTimer := false, authPromise := false }
  let c := c.setState ConnState.unauthorized now
  c.rejectAttempt now

/-- handleAuthMessage: dispatch on the message type while a handshake is
pending; the default branch moves to Unauthorized on an invalid-key error. -/
def handleAuthMessage (c : Conn) (m : ServerMsg) (now : ℕ) : Conn :=
  if c.authPromise = false then c
  else if m.type = "auth_required" then { c with sent := c.sent ++ [Frame.auth now] }
  else if m.type = "auth_success" then c
  else if m.type = "connected" then c.handleConnectedMsg now
  else if m.type = "auth_timeout" ∨ m.type = "error" then c.handleAuthErrorMsg now
  else if m.type = "heartbeat" then { c with lastPongTime := some now }
  else if m.error = some "Invalid API key" then c.setState ConnState.unauthorized now
  else c

/-- handleMessage: before authentication everything goes to the handshake
handler; afterwards heartbeats update the liveness timestamp and every other
frame is broadcast to the registered message handlers (the channels), which
leaves the connection state untouched. -/
def handleMessage (c : Conn) (m : ServerMsg) (now : ℕ) : Conn :=
  if c.isAuthenticated = false then c.handleAuthMessage m now
  else if m.type = "heartbeat" then { c with lastPongTime := some now }
  else c

/-- The authentication timeout firing: null the handshake promise, reject it,
and run the same catch-branch as an auth error. -/
def authTimerFired (c : Conn) (now : ℕ) : Conn :=
  if c.authTimer then
    let c := { c with authTimer := false, authPromise := false }
    let c := c.setState ConnState.unauthorized now
    c.rejectAttempt now
  else c

/-- The reconnection timer firing: a new attempt starts only if reconnection
is still enabled and the state is still Reconnecting. -/
def reconnectTimerFired (c : Conn) (now : ℕ) : Conn :=
  if c.reconnectTimer then
    let c := { c with reconnectTimer := false }
    if c.shouldReconnect = true ∧ c.state = ConnState.reconnecting then
      c.attemptConnection now
    else c
  else c

/-- One heartbeat interval tick: when connected, a stale liveness timestamp
(over twice the 30-second interval) force-closes the socket (the closure
arrives as a later socket close event); otherwise a heartbeat frame is sent. -/
def heartbeatTick (c : Conn) (now : ℕ) : Conn :=
  if c.heartbeatTimer then
    if c.isConnected then
      if 30000 * 2 < now - (c.lastPongTime.getD 0) then c
      else c.send (Frame.heartbeat now) now
    else c
  else c

end Conn

/-- The discrete events driving the connection: public calls, socket
callbacks and timer firings. -/
inductive Event
  | connectCall
  | disconnectCall
  | socketOpen
  | socketError
  | socketClose (code : ℕ)
  | inbound (m : ServerMsg)
  | authTimerFires
  | reconnectTimerFires
  | heartbeatTick
deriving DecidableEq

namespace Conn

/-- One step of the event-driven machine. Socket callbacks fire only while a
socket is attached (disconnect detaches the handlers), the open callback only
for a socket still in its connecting phase, and message delivery only from an
open socket. -/
def step (c : Conn) (e : Event) (now : ℕ) : Conn :=
  match e with
  | Event.connectCall => (c.connect now).2
  | Event.disconnectCall => c.disconnect now
  | Event.socketOpen =>
    match c.ws with
    | some WsPhase.connecting => c.handleOpen now
    | _ => c
  | Event.socketError =>
    match c.ws with
    | none => c
    | some _ => c.handleSocketError now
  | Event.socketClose code =>
    match c.ws with
    | none => c
    | some _ => c.handleClose code now
  | Event.inbound m =>
    match c.ws with
    | some WsPhase.open => c.handleMessage m now
    | _ => c
  | Event.authTimerFires => c.authTimerFired now
  | Event.reconnectTimerFires => c.reconnectTimerFired now
  | Event.heartbeatTick => c.heartbeatTick now

/-- Run a list of timestamped events. -/
def run (c : Conn) : List (Event × ℕ) → Conn
  | [] => c
  | (e, t) :: rest => (c.step e t).run rest

/-- The constructed connection: Disconnected, unauthenticated, empty outbox,
a backoff seeded from reconnectTimeout (default 3000) with multiplier 1.5,
maxDelay 30000 and maxAttempts 20. -/
def init (clientId : String) (reconnectTimeout : Option ℚ) : Conn :=
  { state := ConnState.disconnected
    clientId := clientId
    isAuthenticated := false
    shouldReconnect := false
    ws := none
    connectionPromise := none
    nextPromiseId := 0
    socketsOpened := 0
    authPromise := false
    authTimer := false
    reconnectTimer := false
    heartbeatTimer := false
    lastPongTime := none
    backoff := ExponentialBackoff.create
      ⟨some (jsOr reconnectTimeout 3000), some (3/2), some 30000, none, some 20⟩
    messageQueue := []
    sent := []
    connectivityLog := [] }

@[simp] theorem setState_state (c : Conn) (s : ConnState) (t : ℕ) :
    (c.setState s t).state = s := by
  unfold setState
  split
  · assumption
  · rfl

@[simp] theorem setState_isAuthenticated (c : Conn) (s : ConnState) (t : ℕ) :
    (c.setState s t).isAuthenticated = c.isAuthenticated := by
  unfold setState
  split <;> rfl

@[simp] theorem setState_ws (c : Conn) (s : ConnState) (t : ℕ) :
    (c.setState s t).ws = c.ws := by
  unfold setState
  split <;> rfl

@[simp] theorem setState_authTimer (c : Conn) (s : ConnState) (t : ℕ) :
    (c.setState s t).authTimer = c.authTimer := by
  unfold setState
  split <;> rfl

@[simp] theorem setState_authPromise (c : Conn) (s : ConnState) (t : ℕ) :
    (c.setState s t).authPromise = c.authPromise := by
  unfold setState
  split <;> rfl

@[simp] theorem setState_shouldReconnect (c : Conn) (s : ConnState) (t : ℕ) :
    (c.setState s t).shouldReconnect = c.shouldReconnect := by
  unfold setState
  split <;> rfl

@[simp] theorem setState_reconnectTimer (c : Conn) (s : ConnState) (t : ℕ) :
    (c.setState s t).reconnectTimer = c.reconnectTimer := by
  unfold setState
  split <;> rfl

@[simp] theorem setState_heartbeatTimer (c : Conn) (s : ConnState) (t : ℕ) :
    (c.setState s t).heartbeatTimer = c.heartbeatTimer := by
  unfold setState
  split <;> rfl

@[simp] theorem setState_connectionPromise (c : Conn) (s : ConnState) (t : ℕ) :
    (c.setState s t).connectionPromise = c.connectionPromise := by
  unfold setState
  split <;> rfl

@[simp] theorem setState_clientId (c : Conn) (s : ConnState) (t : ℕ) :
    (c.setState s t).clientId = c.clientId := by
  unfold setState
  split <;> rfl

@[simp] theorem setState_socketsOpened (c : Conn) (s : ConnState) (t : ℕ) :
    (c.setState s t).socketsOpened = c.socketsOpened := by
  unfold setState
  split <;> rfl

@[simp] theorem setState_nextPromiseId (c : Conn) (s : ConnState) (t : ℕ) :
    (c.setState s t).nextPromiseId = c.nextPromiseId := by
  unfold setState
  split <;> rfl

@[simp] theorem send_state (c : Conn) (f : Frame) (t : ℕ) :
    (c.send f t).state = c.state := by
  unfold send
  split <;> rfl

@[simp] theorem send_isAuthenticated (c : Conn) (f : Frame) (t : ℕ) :
    (c.send f t).isAuthenticated = c.isAuthenticated := by
  unfold send
  split <;> rfl

@[simp] theorem send_ws (c : Conn) (f : Frame) (t : ℕ) :
    (c.send f t).ws = c.ws := by
  unfold send
  split <;> rfl

@[simp] theorem send_authTimer (c : Conn) (f : Frame) (t : ℕ) :
    (c.send f t).authTimer = c.authTimer := by
  unfold send
  split <;> rfl

@[simp] theorem send_shouldReconnect (c : Conn) (f : Frame) (t : ℕ) :
    (c.send f t).shouldReconnect = c.shouldReconnect := by
  unfold send
  split <;> rfl

@[simp] theorem foldl_send_state (l : List (Frame × ℕ)) (c : Conn) (t : ℕ) :
    (l.foldl (fun acc q => acc.send q.1 t) c).state = c.state := by
  induction l generalizing c with
  | nil => rfl
  | cons q rest ih => simp [ih]

@[simp] theorem foldl_send_isAuthenticated (l : List (Frame × ℕ)) (c : Conn) (t : ℕ) :
    (l.foldl (fun acc q => acc.send q.1 t) c).isAuthenticated = c.isAuthenticated := by
  induction l generalizing c with
  | nil => rfl
  | cons q rest ih => simp [ih]

@[simp] theorem foldl_send_ws (l : List (Frame × ℕ)) (c : Conn) (t : ℕ) :
    (l.foldl (fun acc q => acc.send q.1 t) c).ws = c.ws := by
  induction l generalizing c with
  | nil => rfl
  | cons q rest ih => simp [ih]

@[simp] theorem foldl_send_authTimer (l : List (Frame × ℕ)) (c : Conn) (t : ℕ) :
    (l.foldl (fun acc q => acc.send q.1 t) c).authTimer = c.authTimer := by
  induction l generalizing c with
  | nil => rfl
  | cons q rest ih => simp [ih]

@[simp] theorem foldl_send_shouldReconnect (l : List (Frame × ℕ)) (c : Conn) (t : ℕ) :
    (l.foldl (fun acc q => acc.send q.1 t) c).shouldReconnect = c.shouldReconnect := by
  induction l generalizing c with
  | nil => rfl
  | cons q rest ih => simp [ih]

@[simp] theorem flush_state (c : Conn) (t : ℕ) :
    (c.flushMessageQueue t).state = c.state := by
  unfold flushMessageQueue
  split <;> simp

@[simp] theorem flush_isAuthenticated (c : Conn) (t : ℕ) :
    (c.flushMessageQueue t).isAuthenticated = c.isAuthenticated := by
  unfold flushMessageQueue
  split <;> simp

@[simp] theorem flush_ws (c : Conn) (t : ℕ) :
    (c.flushMessageQueue t).ws = c.ws := by
  unfold flushMessageQueue
  split <;> simp

@[simp] theorem flush_authTimer (c : Conn) (t : ℕ) :
    (c.flushMessageQueue t).authTimer = c.authTimer := by
  unfold flushMessageQueue
  split <;> simp

@[simp] theorem flush_shouldReconnect (c : Conn) (t : ℕ) :
    (c.flushMessageQueue t).shouldReconnect = c.shouldReconnect := by
  unfold flushMessageQueue
  split <;> simp

/-- Sequential application of internal state-setter calls. -/
def applyStates (c : Conn) : List (ConnState × ℕ) → Conn
  | [] => c
  | (s, t) :: rest => applyStates (c.setState s t) rest

/-- Consistency of the connectivity event log: adjacent emitted events carry
different states, and the last emitted event carries the current state. -/
def LogOk (c : Conn) : Prop :=
  List.Chain' (fun a b => ConnectivityEvent.status a ≠ ConnectivityEvent.status b)
    c.connectivityLog ∧
  ∀ e, c.connectivityLog.getLast? = some e → e.status = c.state

theorem setState_logOk (c : Conn) (s : ConnState) (t : ℕ) (h : LogOk c) :
    LogOk (c.setState s t) := by
  unfold setState
  split
  · exact h
  · rename_i hne
    constructor
    · rw [List.chain'_append]
      refine ⟨h.1, List.chain'_singleton _, ?_⟩
      intro x hx y hy
      simp at hy
      subst hy
      simp
      rw [h.2 x hx]
      exact hne
    · intro e he
      simp [List.getLast?_concat] at he
      subst he
      rfl

theorem applyStates_logOk (l : List (ConnState × ℕ)) (c : Conn) (h : LogOk c) :
    LogOk (applyStates c l) := by
  induction l generalizing c with
  | nil => exact h
  | cons p rest ih => exact ih _ (setState_logOk c p.1 p.2 h)

end Conn

/-- C10: the internal state setter leaves the connection unchanged and emits
nothing when the target equals the current state; when it differs, the state
becomes the target and exactly one connectivity event carrying the new state,
the timestamp and the clientId is appended; consequently, over any sequence
of setter calls starting from an empty log, no two consecutive emitted events
carry the same state. -/
theorem setState_emits_iff_changed (c : Conn) (s : ConnState) (t : ℕ) :
    (c.state = s → c.setState s t = c) ∧
    (c.state ≠ s → (c.setState s t).state = s ∧
      (c.setState s t).connectivityLog = c.connectivityLog
        ++ [{ status := s, timestamp := t, clientId := c.clientId }]) ∧
    (∀ l : List (ConnState × ℕ), c.connectivityLog = [] →
      List.Chain' (fun a b => ConnectivityEvent.status a ≠ ConnectivityEvent.status b)
        (Conn.applyStates c l).connectivityLog) := by
  refine ⟨?_, ?_, ?_⟩
  · intro h
    simp [Conn.setState, h]
  · intro h
    refine ⟨by simp, ?_⟩
    simp [Conn.setState, h]
  · intro l hl
    refine (Conn.applyStates_logOk l c ⟨?_, ?_⟩).1
    · rw [hl]
      exact List.chain'_nil
    · intro e he
      rw [hl] at he
      cases he

/-- C10 witness: on a fresh connection, setting the current state
(disconnected) changes nothing; setting connecting updates the state and
emits one event; and the two-call sequence connecting, connecting emits
adjacent-distinct events. -/
theorem setState_emits_iff_changed_witness :
    ((Conn.init "c" none).setState ConnState.disconnected 0 = Conn.init "c" none) ∧
    (((Conn.init "c" none).setState ConnState.connecting 1).state = ConnState.connecting ∧
      ((Conn.init "c" none).setState ConnState.connecting 1).connectivityLog
        = (Conn.init "c" none).connectivityLog
          ++ [{ status := ConnState.connecting, timestamp := 1,
                clientId := (Conn.init "c" none).clientId }]) ∧
    List.Chain' (fun a b => ConnectivityEvent.status a ≠ ConnectivityEvent.status b)
      (Conn.applyStates (Conn.init "c" none)
        [(ConnState.connecting, 0), (ConnState.connecting, 1)]).connectivityLog :=
  ⟨(setState_emits_iff_changed (Conn.init "c" none) ConnState.disconnected 0).1 rfl,
   (setState_emits_iff_changed (Conn.init "c" none) ConnState.connecting 1).2.1
     (by simp [Conn.init]),
   (setState_emits_iff_changed (Conn.init "c" none) ConnState.connecting 0).2.2
     [(ConnState.connecting, 0), (ConnState.connecting, 1)] rfl⟩

theorem queueMessage_length_le {α : Type} (cap : ℕ) (hcap : 1 ≤ cap)
    (q : List (α × ℕ)) (hq : q.length ≤ cap) (m : α) (t : ℕ) :
    (queueMessage cap q m t).length ≤ cap := by
  unfold queueMessage
  split
  · rename_i h
    simp
    omega
  · rename_i h
    simp
    omega

/-- C6: starting from any outbox within capacity, any sequence of enqueues
leaves the outbox within capacity (capacity at least 1, as the connection's
fixed 10000); an enqueue at capacity drops exactly the oldest entry before
appending; Connection.send queues through queueMessage with capacity 10000
whenever not connected; and with capacity 2, enqueuing A, B, C from empty
leaves the queue holding B, C. -/
theorem outbox_never_exceeds_capacity {α : Type} (cap : ℕ) (hcap : 1 ≤ cap)
    (q : List (α × ℕ)) (hq : q.length ≤ cap) (ms : List (α × ℕ)) :
    (ms.foldl (fun acc p => queueMessage cap acc p.1 p.2) q).length ≤ cap ∧
    (∀ (q' : List (α × ℕ)) m t, q'.length = cap →
      queueMessage cap q' m t = q'.drop 1 ++ [(m, t)]) ∧
    (∀ (c : Conn) f t, c.isConnected = false →
      (c.send f t).messageQueue = queueMessage 10000 c.messageQueue f t) ∧
    ([(("A" : String), 0), ("B", 1), ("C", 2)].foldl
        (fun acc p => queueMessage 2 acc p.1 p.2) ([] : List (String × ℕ)))
      = [("B", 1), ("C", 2)] := by
  refine ⟨?_, ?_, ?_, by decide⟩
  · induction ms generalizing q with
    | nil => exact hq
    | cons p rest ih =>
      exact ih _ (queueMessage_length_le cap hcap q hq p.1 p.2)
  · intro q' m t hlen
    unfold queueMessage
    rw [if_pos (le_of_eq hlen.symm)]
  · intro c f t hc
    simp [Conn.send, hc]

/-- C6 witness: the instantiation at capacity 2 with the three-element
enqueue sequence A, B, C from the empty outbox. -/
theorem outbox_never_exceeds_capacity_witness :
    (([(("A" : String), 0), ("B", 1), ("C", 2)] : List (String × ℕ)).foldl
        (fun acc p => queueMessage 2 acc p.1 p.2) ([] : List (String × ℕ))).length ≤ 2 ∧
    ([(("A" : String), 0), ("B", 1), ("C", 2)].foldl
        (fun acc p => queueMessage 2 acc p.1 p.2) ([] : List (String × ℕ)))
      = [("B", 1), ("C", 2)] :=
  ⟨(outbox_never_exceeds_capacity 2 (by decide) [] (by decide)
      [(("A" : String), 0), ("B", 1), ("C", 2)]).1,
   (outbox_never_exceeds_capacity 2 (by decide) ([] : List (String × ℕ)) (by decide)
      [(("A" : String), 0), ("B", 1), ("C", 2)]).2.2.2⟩

/-- C9: a connect() call finding a pending connectionPromise returns that same
pending result and changes nothing, so after a first call from an idle
connection every overlapping call returns the first call's promise and the
state after any number of overlapping calls is the state after the first,
with exactly one socket having been opened. -/
theorem connect_idempotent_concurrent (c : Conn) (t₁ t₂ : ℕ)
    (h : c.connectionPromise = none) :
    ((c.connect t₁).2.connect t₂).1 = (c.connect t₁).1 ∧
    ((c.connect t₁).2.connect t₂).2 = (c.connect t₁).2 ∧
    (c.connect t₁).2.socketsOpened = c.socketsOpened + 1 ∧
    ∀ k, (fun s => (Conn.connect s t₂).2)^[k] (c.connect t₁).2 = (c.connect t₁).2 := by
  have h1 : (c.connect t₁).2.connectionPromise = some c.nextPromiseId := by
    simp [Conn.connect, h, Conn.attemptConnection]
  have h3 : ∀ (s : Conn) (p : ℕ), s.connectionPromise = some p → s.connect t₂ = (p, s) := by
    intro s p hp
    simp [Conn.connect, hp]
  have hfix : (c.connect t₁).2.connect t₂ = (c.nextPromiseId, (c.connect t₁).2) :=
    h3 _ _ h1
  refine ⟨?_, by rw [hfix], ?_, ?_⟩
  · rw [hfix]
    simp [Conn.connect, h]
  · simp [Conn.connect, h, Conn.attemptConnection]
  · intro k
    induction k with
    | zero => rfl
    | succ n ih =>
      rw [Function.iterate_succ_apply', ih]
      simp [hfix]

/-- C9 witness: on a fresh connection, the second overlapping connect() call
returns the first call's promise, leaves the state of the first call intact,
and exactly one socket has been opened. -/
theorem connect_idempotent_concurrent_witness :
    (((Conn.init "c" none).connect 0).2.connect 1).1 = ((Conn.init "c" none).connect 0).1 ∧
    (((Conn.init "c" none).connect 0).2.connect 1).2 = ((Conn.init "c" none).connect 0).2 ∧
    ((Conn.init "c" none).connect 0).2.socketsOpened
      = (Conn.init "c" none).socketsOpened + 1 ∧
    ∀ k, (fun s => (Conn.connect s 1).2)^[k] ((Conn.init "c" none).connect 0).2
          = ((Conn.init "c" none).connect 0).2 :=
  connect_idempotent_concurrent (Conn.init "c" none) 0 1 rfl

namespace Conn

theorem rejectAttempt_shouldReconnect (c : Conn) (t : ℕ) :
    (c.rejectAttempt t).shouldReconnect = c.shouldReconnect := by
  unfold rejectAttempt
  rcases hcp : c.connectionPromise with - | p
  · dsimp only
    split <;> simp [scheduleReconnection]
  · rfl

theorem rejectAttempt_isAuthenticated (c : Conn) (t : ℕ) :
    (c.rejectAttempt t).isAuthenticated = c.isAuthenticated := by
  unfold rejectAttempt
  rcases hcp : c.connectionPromise with - | p
  · dsimp only
    split <;> simp [scheduleReconnection]
  · rfl

theorem rejectAttempt_ws (c : Conn) (t : ℕ) :
    (c.rejectAttempt t).ws = c.ws := by
  unfold rejectAttempt
  rcases hcp : c.connectionPromise with - | p
  · dsimp only
    split <;> simp [scheduleReconnection]
  · rfl

theorem rejectAttempt_authTimer (c : Conn) (t : ℕ) :
    (c.rejectAttempt t).authTimer = c.authTimer := by
  unfold rejectAttempt
  rcases hcp : c.connectionPromise with - | p
  · dsimp only
    split <;> simp [scheduleReconnection]
  · rfl

theorem rejectAttempt_state (c : Conn) (t : ℕ) :
    (c.rejectAttempt t).state = c.state ∨ (c.rejectAttempt t).state = ConnState.failed := by
  unfold rejectAttempt
  rcases hcp : c.connectionPromise with - | p
  · dsimp only
    split
    · right
      simp
    · left
      simp [scheduleReconnection]
  · left
    rfl

theorem handleAuthMessage_shouldReconnect (c : Conn) (m : ServerMsg) (t : ℕ) :
    (c.handleAuthMessage m t).shouldReconnect = c.shouldReconnect := by
  unfold handleAuthMessage handleConnectedMsg handleAuthErrorMsg
  split_ifs <;> simp [rejectAttempt_shouldReconnect]

theorem handleAuthMessage_state_ne_reconnecting (c : Conn) (m : ServerMsg) (t : ℕ)
    (h2 : c.state ≠ ConnState.reconnecting) :
    (c.handleAuthMessage m t).state ≠ ConnState.reconnecting := by
  unfold handleAuthMessage handleConnectedMsg handleAuthErrorMsg
  split_ifs
  all_goals try exact h2
  all_goals try simp
  all_goals rcases rejectAttempt_state _ t with hs | hs <;> rw [hs] <;> simp

theorem handleMessage_shouldReconnect (c : Conn) (m : ServerMsg) (t : ℕ) :
    (c.handleMessage m t).shouldReconnect = c.shouldReconnect := by
  unfold handleMessage
  split_ifs
  · exact handleAuthMessage_shouldReconnect c m t
  · rfl
  · rfl

theorem handleMessage_state_ne_reconnecting (c : Conn) (m : ServerMsg) (t : ℕ)
    (h2 : c.state ≠ ConnState.reconnecting) :
    (c.handleMessage m t).state ≠ ConnState.reconnecting := by
  unfold handleMessage
  split_ifs
  · exact handleAuthMessage_state_ne_reconnecting c m t h2
  · exact h2
  · exact h2

theorem step_no_reconnect (c : Conn) (e : Event) (t : ℕ)
    (h1 : c.shouldReconnect = false) (h2 : c.state ≠ ConnState.reconnecting)
    (he : e ≠ Event.connectCall) :
    (c.step e t).shouldReconnect = false ∧ (c.step e t).state ≠ ConnState.reconnecting := by
  cases e with
  | connectCall => exact absurd rfl he
  | disconnectCall =>
    constructor <;> simp [step, disconnect]
  | socketOpen =>
    simp only [step]
    rcases hws : c.ws with - | ph
    · exact ⟨h1, h2⟩
    · cases ph
      · constructor <;> simp [handleOpen, h1]
      · exact ⟨h1, h2⟩
  | socketError =>
    simp only [step]
    rcases hws : c.ws with - | ph
    · exact ⟨h1, h2⟩
    · simp only [handleSocketError]
      split_ifs with hst
      · refine ⟨by rw [rejectAttempt_shouldReconnect]; exact h1, ?_⟩
        rcases rejectAttempt_state c t with hs | hs <;> rw [hs]
        · exact h2
        · simp
      · exact ⟨h1, h2⟩
  | socketClose code =>
    simp only [step]
    rcases hws : c.ws with - | ph
    · exact ⟨h1, h2⟩
    · simp only [handleClose, handleDisconnection]
      rw [if_pos (Or.inl h1)]
      constructor <;> simp [h1]
  | inbound m =>
    simp only [step]
    rcases hws : c.ws with - | ph
    · exact ⟨h1, h2⟩
    · cases ph
      · exact ⟨h1, h2⟩
      · exact ⟨by rw [handleMessage_shouldReconnect]; exact h1,
               handleMessage_state_ne_reconnecting c m t h2⟩
  | authTimerFires =>
    simp only [step, authTimerFired]
    split_ifs with hat
    · refine ⟨by rw [rejectAttempt_shouldReconnect]; simpa using h1, ?_⟩
      rcases rejectAttempt_state _ t with hs | hs <;> rw [hs] <;> simp
    · exact ⟨h1, h2⟩
  | reconnectTimerFires =>
    simp only [step, reconnectTimerFired]
    split_ifs with hrt hgo
    · rcases hgo with ⟨hsr, -⟩
      rw [show ({ c with reconnectTimer := false } : Conn).shouldReconnect
            = c.shouldReconnect from rfl, h1] at hsr
      cases hsr
    · exact ⟨h1, h2⟩
    · exact ⟨h1, h2⟩
  | heartbeatTick =>
    simp only [step, heartbeatTick]
    split_ifs <;> simp [h1, h2]

end Conn

/-- C8: disconnect() synchronously disables reconnection, clears the
reconnection, authentication and heartbeat timers, resets isAuthenticated,
detaches and drops the socket, and forces the state to Disconnected; and from
that point no sequence of events that does not contain a connect() call can
ever bring the state to Reconnecting. -/
theorem disconnect_never_reconnects (c : Conn) (t : ℕ) :
    (c.step Event.disconnectCall t).shouldReconnect = false ∧
    (c.step Event.disconnectCall t).reconnectTimer = false ∧
    (c.step Event.disconnectCall t).authTimer = false ∧
    (c.step Event.disconnectCall t).heartbeatTimer = false ∧
    (c.step Event.disconnectCall t).isAuthenticated = false ∧
    (c.step Event.disconnectCall t).ws = none ∧
    (c.step Event.disconnectCall t).state = ConnState.disconnected ∧
    ∀ l : List (Event × ℕ), (∀ p ∈ l, p.1 ≠ Event.connectCall) →
      ((c.step Event.disconnectCall t).run l).state ≠ ConnState.reconnecting := by
  refine ⟨by simp [Conn.step, Conn.disconnect], by simp [Conn.step, Conn.disconnect],
    by simp [Conn.step, Conn.disconnect], by simp [Conn.step, Conn.disconnect],
    by simp [Conn.step, Conn.disconnect], by simp [Conn.step, Conn.disconnect],
    by simp [Conn.step, Conn.disconnect], ?_⟩
  have key : ∀ (l : List (Event × ℕ)) (d : Conn), d.shouldReconnect = false →
      d.state ≠ ConnState.reconnecting → (∀ p ∈ l, p.1 ≠ Event.connectCall) →
      (d.run l).state ≠ ConnState.reconnecting := by
    intro l
    induction l with
    | nil =>
      intro d hsr hst hl
      exact hst
    | cons p rest ih =>
      intro d hsr hst hl
      obtain ⟨hsr', hst'⟩ := Conn.step_no_reconnect d p.1 p.2 hsr hst
        (hl p (List.mem_cons_self p rest))
      exact ih _ hsr' hst' (fun q hq => hl q (List.mem_cons_of_mem p hq))
  intro l hl
  refine key l _ ?_ ?_ hl
  · simp [Conn.step, Conn.disconnect]
  · simp [Conn.step, Conn.disconnect]

/-- C8 witness: a fresh connection that connected, authenticated and then
deliberately disconnected never reaches Reconnecting across a later socket
close, timer firings and a heartbeat tick. -/
theorem disconnect_never_reconnects_witness :
    ((((Conn.init "c" none).run
        [(Event.connectCall, 0), (Event.socketOpen, 1),
         (Event.inbound ⟨"connected", none⟩, 2)]).step Event.disconnectCall 3).run
      [(Event.socketClose 1006, 4), (Event.reconnectTimerFires, 5),
       (Event.authTimerFires, 6), (Event.heartbeatTick, 7)]).state
      ≠ ConnState.reconnecting :=
  (disconnect_never_reconnects ((Conn.init "c" none).run
      [(Event.connectCall, 0), (Event.socketOpen, 1),
       (Event.inbound ⟨"connected", none⟩, 2)]) 3).2.2.2.2.2.2.2
    [(Event.socketClose 1006, 4), (Event.reconnectTimerFires, 5),
     (Event.authTimerFires, 6), (Event.heartbeatTick, 7)]
    (by intro p hp; fin_cases hp <;> decide)

namespace Conn

/-- The C3 invariant: an authenticated session is in the Connected state, its
socket is open and no authentication timer is pending. -/
def AuthInv (c : Conn) : Prop :=
  c.isAuthenticated = true →
    c.state = ConnState.connected ∧ c.ws = some WsPhase.open ∧ c.authTimer = false

/-- A trace in which every connect() call happens while unauthenticated. -/
def GoodTrace : Conn → List (Event × ℕ) → Prop
  | _, [] => True
  | c, (e, t) :: rest =>
    (e = Event.connectCall → c.isAuthenticated = false) ∧ GoodTrace (c.step e t) rest

theorem goodTrace_nil (c : Conn) : GoodTrace c [] := by
  simp only [GoodTrace]

theorem goodTrace_cons (c : Conn) (e : Event) (t : ℕ) (rest : List (Event × ℕ))
    (h1 : e = Event.connectCall → c.isAuthenticated = false)
    (h2 : GoodTrace (c.step e t) rest) : GoodTrace c ((e, t) :: rest) := by
  simp only [GoodTrace]
  exact ⟨h1, h2⟩

theorem connect_isAuthenticated (c : Conn) (t : ℕ) :
    ((c.connect t).2).isAuthenticated = c.isAuthenticated := by
  unfold connect attemptConnection
  rcases hcp : c.connectionPromise with - | p <;> simp

theorem handleClose_isAuthenticated (c : Conn) (code : ℕ) (t : ℕ) :
    (c.handleClose code t).isAuthenticated = false := by
  simp only [handleClose, handleDisconnection]
  split_ifs <;> simp [scheduleReconnection]

theorem handleAuthMessage_authInv (c : Conn) (m : ServerMsg) (t : ℕ)
    (hws : c.ws = some WsPhase.open) (hAuth : c.isAuthenticated = false) :
    AuthInv (c.handleAuthMessage m t) := by
  unfold handleAuthMessage
  split_ifs
  · intro hA
    rw [hAuth] at hA
    cases hA
  · intro hA
    rw [show (({ c with sent := c.sent ++ [Frame.auth t] } : Conn)).isAuthenticated
          = c.isAuthenticated from rfl, hAuth] at hA
    cases hA
  · intro hA
    rw [hAuth] at hA
    cases hA
  · intro _
    refine ⟨by simp [handleConnectedMsg], ?_, by simp [handleConnectedMsg]⟩
    rw [show ((c.handleConnectedMsg t).ws) = c.ws from by simp [handleConnectedMsg]]
    exact hws
  · intro hA
    rw [handleAuthErrorMsg, rejectAttempt_isAuthenticated] at hA
    simp [hAuth] at hA
  · intro hA
    rw [show (({ c with lastPongTime := some t } : Conn)).isAuthenticated
          = c.isAuthenticated from rfl, hAuth] at hA
    cases hA
  · intro hA
    rw [setState_isAuthenticated, hAuth] at hA
    cases hA
  · intro hA
    rw [hAuth] at hA
    cases hA

theorem step_authInv (c : Conn) (e : Event) (t : ℕ) (h : AuthInv c)
    (hc : e = Event.connectCall → c.isAuthenticated = false) :
    AuthInv (c.step e t) := by
  cases e with
  | connectCall =>
    intro hA
    rw [show (c.step Event.connectCall t) = (c.connect t).2 from rfl,
      connect_isAuthenticated, hc rfl] at hA
    cases hA
  | disconnectCall =>
    intro hA
    simp [step, disconnect] at hA
  | socketOpen =>
    simp only [step]
    rcases hws : c.ws with - | ph
    · exact h
    · cases ph
      · intro hA
        rw [show ((c.handleOpen t).isAuthenticated) = c.isAuthenticated from
              by simp [handleOpen]] at hA
        obtain ⟨-, hwso, -⟩ := h hA
        rw [hws] at hwso
        exact absurd hwso (by decide)
      · exact h
  | socketError =>
    simp only [step]
    rcases hws : c.ws with - | ph
    · exact h
    · simp only [handleSocketError]
      split_ifs with hst
      · intro hA
        rw [rejectAttempt_isAuthenticated] at hA
        exact absurd (hst.symm.trans (h hA).1) (by decide)
      · exact h
  | socketClose code =>
    simp only [step]
    rcases hws : c.ws with - | ph
    · exact h
    · intro hA
      rw [handleClose_isAuthenticated] at hA
      cases hA
  | inbound m =>
    simp only [step]
    rcases hws : c.ws with - | ph
    · exact h
    · cases ph
      · exact h
      · cases hiA : c.isAuthenticated
        · rw [handleMessage, if_pos hiA]
          exact handleAuthMessage_authInv c m t hws hiA
        · rw [handleMessage, if_neg (by rw [hiA]; decide)]
          split_ifs
          · intro _
            obtain ⟨hs, hw, ht⟩ := h hiA
            exact ⟨hs, hw, ht⟩
          · exact h
  | authTimerFires =>
    simp only [step, authTimerFired]
    split_ifs with hat
    · intro hA
      rw [rejectAttempt_isAuthenticated, setState_isAuthenticated] at hA
      have := (h hA).2.2
      rw [hat] at this
      cases this
    · exact h
  | reconnectTimerFires =>
    simp only [step, reconnectTimerFired]
    split_ifs with hrt hgo
    · intro hA
      simp only [attemptConnection, setState_isAuthenticated] at hA
      exact absurd (hgo.2.symm.trans (h hA).1) (by decide)
    · intro hA
      exact h hA
    · exact h
  | heartbeatTick =>
    simp only [step, heartbeatTick]
    split_ifs
    · exact h
    · intro hA
      rw [send_isAuthenticated] at hA
      obtain ⟨hs, hw, ht⟩ := h hA
      exact ⟨by rw [send_state]; exact hs, by rw [send_ws]; exact hw,
             by rw [send_authTimer]; exact ht⟩
    · exact h
    · exact h

end Conn

/-- The C3 counterexample trace: connect, socket open, the server's connected
message, then a second connect() call while authenticated. -/
def repeatConnectTrace : List (Event × ℕ) :=
  [(Event.connectCall, 0), (Event.socketOpen, 1),
   (Event.inbound ⟨"connected", none⟩, 2), (Event.connectCall, 3)]

/-- C3 counterexample: a connect() call made while authenticated moves the
state to Connecting via attemptConnection without resetting isAuthenticated,
so the session reaches a state with isAuthenticated true and state not equal
to Connected. -/
theorem auth_state_invariant_counterexample :
    ((Conn.init "c" none).run repeatConnectTrace).isAuthenticated = true ∧
    ((Conn.init "c" none).run repeatConnectTrace).state = ConnState.connecting ∧
    ConnState.connecting ≠ ConnState.connected := by
  exact ⟨by decide, by decide, by decide⟩

/-- C3 (amended): in every state reached by a trace in which connect() is only
invoked while unauthenticated, isAuthenticated implies state Connected (every
other event - socket open, inbound message, close, timers, disconnect -
preserves the invariant unconditionally). -/
theorem auth_implies_connected (cid : String) (rt : Option ℚ) (l : List (Event × ℕ))
    (hg : Conn.GoodTrace (Conn.init cid rt) l)
    (hA : ((Conn.init cid rt).run l).isAuthenticated = true) :
    ((Conn.init cid rt).run l).state = ConnState.connected := by
  have inv : ∀ (l' : List (Event × ℕ)) (c : Conn), Conn.AuthInv c →
      Conn.GoodTrace c l' → Conn.AuthInv (c.run l') := by
    intro l'
    induction l' with
    | nil =>
      intro c hI hg'
      exact hI
    | cons p rest ih =>
      intro c hI hg'
      rcases p with ⟨e, t⟩
      exact ih _ (Conn.step_authInv c e t hI hg'.1) hg'.2
  exact (inv l (Conn.init cid rt) (fun hA' => Bool.noConfusion hA') hg hA).1

/-- C3 witness: the well-behaved trace connect, socket open, connected message
ends authenticated and in the Connected state. -/
theorem auth_implies_connected_witness :
    ((Conn.init "c" none).run
      [(Event.connectCall, 0), (Event.socketOpen, 1),
       (Event.inbound ⟨"connected", none⟩, 2)]).state = ConnState.connected :=
  auth_implies_connected "c" none
    [(Event.connectCall, 0), (Event.socketOpen, 1),
     (Event.inbound ⟨"connected", none⟩, 2)]
    (Conn.goodTrace_cons _ _ _ _ (fun _ => rfl)
      (Conn.goodTrace_cons _ _ _ _ (fun h => nomatch h)
        (Conn.goodTrace_cons _ _ _ _ (fun h => nomatch h)
          (Conn.goodTrace_nil _))))
    (by decide)

end Brook
